import Mathlib

/-!
Verification of the MedRAX tutorial script (src/tutorial_poc.py), a
sectioned documentation printer.  The script is embedded shallowly:
standard output is modelled as a list of the payload strings handed to
the Python builtin print, threaded through an explicit world state, and
the rendered byte stream is recovered by appending one newline per print
call (exactly what print does).  The Python source reads neither its
environment nor its argument vector; both are still passed explicitly to
the embedded main so that determinism can be stated as a real property.
-/

set_option maxRecDepth 40000

namespace MedRAX

/-- The separator string built by the Python expression that repeats the
equals sign 70 times. -/
def sep : String := String.mk (List.replicate 70 '=')

/-- Embedding of the Python method str.center, including the CPython
rounding rule for the left margin. -/
def pyCenter (s : String) (width : Nat) (fill : Char) : String :=
  if width ≤ s.length then s
  else
    let marg := width - s.length
    let left := marg / 2 + (marg &&& width &&& 1)
    String.mk (List.replicate left fill) ++ s ++ String.mk (List.replicate (marg - left) fill)

/-- The process world: the list of payload strings passed to print so
far, in order.  Each payload is rendered followed by one newline. -/
structure World where
  out : List String

/-- Embedding of the Python builtin print: appends its payload to the
output stream. -/
def pyPrint (s : String) (w : World) : World := World.mk (w.out ++ [s])

/-- Embedding of print_section (src/tutorial_poc.py lines 14-18): three
print calls forming a banner around the given title. -/
def print_section (title : String) (w : World) : World :=
  pyPrint (sep ++ "\n") (pyPrint ("  " ++ title) (pyPrint ("\n" ++ sep) w))

/-- The body string named tools in demo_supported_tools. -/
def tools : String :=
  "\nMedRAX provides the following specialized tools for chest X-ray analysis:\n"
  ++ "\n1. CHEST_X_RAY_CLASSIFIER\n   - Pneumonia detection\n   - Tuberculosis screening\n   - Lung opacity classification\n"
  ++ "\n2. CHEST_X_RAY_SEGMENTATION\n   - Lung segmentation\n   - Heart segmentation\n   - Thoracic structure delineation\n"
  ++ "\n3. LLAVA_MED_TOOL\n   - Medical image understanding\n   - Multi-modal analysis\n   - Clinical report generation\n"
  ++ "\n4. X_RAY_VQA_TOOL\n   - Visual question answering\n   - Finding identification\n   - Abnormality detection\n"
  ++ "\n5. CHEST_X_RAY_REPORT_GENERATOR\n   - Automated report writing\n   - Clinical terminology\n   - Structure report formatting\n"
  ++ "\n6. X_RAY_PHRASE_GROUNDING\n   - Finding localization\n   - Anatomical labeling\n   --abnormality mapping\n"
  ++ "\n7. IMAGE_VISUALIZER\n   - Image display\n   - Annotation visualization\n   - Comparison views\n"
  ++ "\n8. DICOM_PROCESSOR\n   - DICOM file reading\n   - Metadata extraction\n   - Series processing\n"

/-- The body string named docker_commands in demo_docker_usage. -/
def docker_commands : String :=
  "\n# Build the Docker image\ncd MedRAX\ndocker build -t medrax:latest .\n"
  ++ "\n# Start container with model weights\ndocker run -d \\\n    --name medrax \\\n    -p 11180:8585 \\\n"
  ++ "    -v $(pwd)/temp:/medrax/temp:rw \\\n    -v $(pwd)/logs:/medrax/logs:rw \\\n"
  ++ "    -v /path/to/model-weights:/model-weights:ro \\\n    -e MODEL=gpt-4o \\\n    -e DEVICE=cuda \\\n"
  ++ "    --gpus all \\\n    medrax:latest\n"
  ++ "\n# View logs\ndocker logs -f medrax\n"
  ++ "\n# Access the Gradio web UI\nopen http://localhost:11180\n"
  ++ "\n# Stop the container\ndocker stop medrax\n"

/-- The body string named config_info in demo_configuration. -/
def config_info : String :=
  "\nEnvironment Variables:\n- MODEL: LLM model to use (default: gpt-4o)\n- DEVICE: Device for model inference (default: cuda)\n- TEMP_DIR: Temporary directory for processing (default: temp)\n"
  ++ "\nRequired Mounts:\n- /model-weights: Directory containing model weights\n- /medrax/temp: Temporary files directory\n- /medrax/logs: Log files directory\n"
  ++ "\nOptional Environment Variables:\n- OPENAI_API_KEY: Your OpenAI API key\n- OPENAI_BASE_URL: Custom OpenAI base URL\n"

/-- The body string named workflow in demo_workflow. -/
def workflow : String :=
  "\n1. PREPARATION\n   ├── Ensure model weights are available at /model-weights\n   ├── Prepare DICOM or image files\n   └── Configure API keys if needed\n"
  ++ "\n2. IMAGE LOADING\n   ├── Upload X-ray image (JPG/PNG/DICOM)\n   └── System extracts image data\n"
  ++ "\n3. ANALYSIS PIPELINE\n   ├── Selection of tools based on task:\n   │   ├── Classification: Pneumonia/TB detection\n   │   ├── Segmentation: Lung/Heart boundaries\n   │   ├── VQA: Answer clinical questions\n   │   └── Report Generation: Full clinical report\n"
  ++ "\n4. AI PROCESSING\n   ├── Model inference on image\n   └── Generation of analysis results\n"
  ++ "\n5. OUTPUT\n   ├── Visual annotations\n   ├── Text reports\n   └── Exportable results\n"

/-- The body string named api_code in demo_python_api. -/
def api_code : String :=
  "\nimport sys\nimport os\nsys.path.insert(0, os.path.dirname(__file__))\n"
  ++ "\nfrom interface import create_demo\nfrom medrax.agent import *\nfrom medrax.tools import *\n"
  ++ "\n# Initialize the agent with specific tools\nselected_tools = [\n    \"ImageVisualizerTool\",\n    \"DicomProcessorTool\",\n    \"ChestXRayClassifierTool\",\n]\n"
  ++ "\nagent, tools_dict = initialize_agent(\n    \"medrax/docs/system_prompts.txt\",\n    tools_to_use=selected_tools,\n    model_dir=\"/model-weights\",\n    temp_dir=\"temp\",\n    device=\"cuda\",\n    model=\"gpt-4o\",\n)\n"
  ++ "\n# Create the Gradio interface\ndemo = create_demo(agent, tools_dict)\ndemo.launch(server_name=\"0.0.0.0\", server_port=8585, share=True)\n"

/-- The body string named models in demo_supported_models. -/
def models : String :=
  "\nLLM Models:\n- gpt-4o (recommended for best quality)\n- gpt-4o-mini (cost-effective)\n- claude-3-5-sonnet\n- gemini-1.5-pro\n"
  ++ "\nMedical Imaging Models:\n- LlavaMed: Multi-modal medical vision-language model\n- ChestXRayClassifier: Pneumonia/TB detection\n- Segmentation models for lung/heart\n"
  ++ "\nText-to-Speech:\n- Edge-TTS: Free Microsoft voices\n- OpenAI TTS: High-quality voices\n- Local TTS models\n"

/-- The body string named storage in demo_storage. -/
def storage : String :=
  "\nDisk Space:\n- Models: 10GB-50GB depending on selected models\n- Temporary files: 5GB+\n- Logs: 1GB+\n"
  ++ "\nGPU Requirements:\n- Minimum: 8GB VRAM\n- Recommended: 16GB+ VRAM\n- With CUDA support for faster inference\n"
  ++ "\nRAM:\n- Minimum: 16GB\n- Recommended: 32GB+\n"

/-- The body string named quick_start in demo_quick_start. -/
def quick_start : String :=
  "\n1. PREREQUISITES\n   Docker installed with CUDA support (optional)\n   Model weights downloaded\n   OpenAI API key (or local LLM)\n"
  ++ "\n2. SETUP\n   git clone https://github.com/bowang-lab/MedRAX.git\n   cd MedRAX\n"
  ++ "\n3. CONFIGURATION\n   # Download model weights to /path/to/model-weights\n   # Update OPENAI_API_KEY in environment\n"
  ++ "\n4. BUILD AND RUN\n   docker build -t medrax:latest .\n   ./invoke.sh start\n"
  ++ "\n5. FIRST USE\n   Open http://localhost:11180\n   Upload a chest X-ray image\n   Select analysis tools\n   Run analysis\n"

/-- The body string named summary in main. -/
def summary : String :=
  "\n1. SETUP\n   - Install Docker with CUDA (optional)\n   - Download model weights\n   - Get OpenAI API key\n"
  ++ "\n2. DEPLOY\n   - Build: docker build -t medrax:latest .\n   - Run: ./invoke.sh start\n"
  ++ "\n3. USE\n   - Access http://localhost:11180\n   - Upload chest X-ray images\n   - Run medical analysis\n"
  ++ "\nFor more information, visit: https://github.com/bowang-lab/MedRAX\n"

/-- Embedding of demo_supported_tools. -/
def demo_supported_tools (w : World) : World :=
  pyPrint tools (print_section "Supported Medical Analysis Tools" w)

/-- Embedding of demo_docker_usage. -/
def demo_docker_usage (w : World) : World :=
  pyPrint docker_commands (print_section "Docker Usage Examples" w)

/-- Embedding of demo_configuration. -/
def demo_configuration (w : World) : World :=
  pyPrint config_info (print_section "Configuration Options" w)

/-- Embedding of demo_workflow. -/
def demo_workflow (w : World) : World :=
  pyPrint workflow (print_section "Medical Analysis Workflow" w)

/-- Embedding of demo_python_api. -/
def demo_python_api (w : World) : World :=
  pyPrint api_code (print_section "Python API Examples" w)

/-- Embedding of demo_supported_models. -/
def demo_supported_models (w : World) : World :=
  pyPrint models (print_section "Available Models" w)

/-- Embedding of demo_storage. -/
def demo_storage (w : World) : World :=
  pyPrint storage (print_section "Storage and Requirements" w)

/-- Embedding of demo_quick_start. -/
def demo_quick_start (w : World) : World :=
  pyPrint quick_start (print_section "Quick Start Guide" w)

/-- Embedding of main (src/tutorial_poc.py lines 272-310).  The Python
function consults neither the environment nor the argument vector; both
are passed so that independence from them is provable rather than built
in.  The result pairs the final world with the return value 0. -/
def main (env : List (String × String)) (argv : List String) (w : World) : World × Int :=
  let w1 := pyPrint ("\n" ++ pyCenter "/MedRAX Tutorial POC" 70 '=') w
  let w2 := pyPrint (pyCenter "  Medical Reasoning Agent for Chest X-ray" 70 ' ') w1
  let w3 := pyPrint sep w2
  let w4 := demo_supported_tools w3
  let w5 := demo_docker_usage w4
  let w6 := demo_configuration w5
  let w7 := demo_workflow w6
  let w8 := demo_python_api w7
  let w9 := demo_supported_models w8
  let w10 := demo_storage w9
  let w11 := demo_quick_start w10
  let w12 := print_section "Quick Start Summary" w11
  let w13 := pyPrint summary w12
  (w13, 0)

/-- The world a fresh process starts in: nothing written yet. -/
def initWorld : World := World.mk []

/-- Embedding of the guard at the bottom of the script: the process exit
status is the return value of main. -/
def script_exit_code (env : List (String × String)) (argv : List String) : Int :=
  (main env argv initWorld).2

/-- The sequence of print payloads a run of main emits, in order. -/
def mainCalls : List String := ((main [] [] initWorld).1).out

/-- A registered section: a title and a pre-formatted body. -/
structure Section where
  title : String
  body : String

/-- The three print payloads print_section emits for a title. -/
def bannerCalls (title : String) : List String :=
  ["\n" ++ sep, "  " ++ title, sep ++ "\n"]

/-- The print payloads the printSection operation of the spec emits for
a section: its banner followed by its body, verbatim. -/
def printSectionCalls (s : Section) : List String :=
  bannerCalls s.title ++ [s.body]

/-- The registered sections of the program, in declaration order. -/
def sections : List Section :=
  [Section.mk "Supported Medical Analysis Tools" tools,
   Section.mk "Docker Usage Examples" docker_commands,
   Section.mk "Configuration Options" config_info,
   Section.mk "Medical Analysis Workflow" workflow,
   Section.mk "Python API Examples" api_code,
   Section.mk "Available Models" models,
   Section.mk "Storage and Requirements" storage,
   Section.mk "Quick Start Guide" quick_start]

/-- The trailing summary, rendered by main through the same two calls. -/
def summarySection : Section := Section.mk "Quick Start Summary" summary

/-- The three print payloads of the leading title banner of main. -/
def headerCalls : List String :=
  ["\n" ++ pyCenter "/MedRAX Tutorial POC" 70 '=',
   pyCenter "  Medical Reasoning Agent for Chest X-ray" 70 ' ',
   sep]

/-- The byte stream print produces for a list of payloads: each payload
followed by one newline. -/
def renderChars (calls : List String) : List Char :=
  (calls.map (fun s => s.data ++ ['\n'])).flatten

/-- Splits a character stream into lines at newline characters.  The
result always has one more entry than the stream has newlines; a stream
ending in a newline therefore ends with an empty entry. -/
def splitLines : List Char → List (List Char)
  | [] => [[]]
  | c :: rest =>
    if c = '\n' then [] :: splitLines rest
    else
      match splitLines rest with
      | [] => [[c]]
      | l :: ls => (c :: l) :: ls

/-- The full byte stream of one run of the program. -/
def outChars : List Char := renderChars mainCalls

/-- The physical output lines of one run of the program. -/
def outLines : List (List Char) := splitLines outChars

/-- Whether a line begins with the equals sign, the rule character of
every banner. -/
def startsWithEq : List Char → Bool
  | '=' :: _ => true
  | _ => false

/-- Number of banners in a line list.  Every banner is rendered with
exactly two lines beginning with the equals sign, its top and bottom
rules, and no body line of this program begins with that character, so
half the count of such lines is the banner count. -/
def bannerCount (ls : List (List Char)) : Nat :=
  (ls.countP startsWithEq) / 2

/-- Index of the first occurrence of needle at or after position i. -/
def findSubFrom (needle : List Char) : Nat → List Char → Option Nat
  | i, [] => if needle = [] then some i else none
  | i, c :: t =>
    if needle.isPrefixOf (c :: t) then some i
    else findSubFrom needle (i + 1) t

/-- Index of the first occurrence of needle in a character stream, if
any. -/
def findSub (needle hay : List Char) : Option Nat := findSubFrom needle 0 hay

/-- Whether a occurs in hay strictly before the first occurrence of b. -/
def occursBefore (a b hay : List Char) : Bool :=
  match findSub a hay, findSub b hay with
  | some i, some j => decide (i < j)
  | _, _ => false

/-- Modelled from the spec: the runtime behaviour of the output stream,
which is not part of the script itself.  A stream accepts a bounded
number of writes; a write against an exhausted stream fails and leaves
the stream unchanged, which models the broken-pipe condition of section
7 of the spec. -/
structure Stream where
  written : List String
  capacity : Nat

/-- Modelled from the spec: one write either succeeds, consuming one
unit of capacity, or fails with no output. -/
def fWrite (s : String) (st : Stream) : Except Stream Stream :=
  match st.capacity with
  | 0 => Except.error st
  | n + 1 => Except.ok (Stream.mk (st.written ++ [s]) n)

/-- Modelled from the spec: the script performs its writes in order with
no handler, so the first failing write aborts the run at once; no write
is retried. -/
def writeAll : List String → Stream → Except Stream Stream
  | [], st => Except.ok st
  | s :: rest, st =>
    match fWrite s st with
    | Except.error st2 => Except.error st2
    | Except.ok st2 => writeAll rest st2

/-- Modelled from the spec: a whole process run against a stream that
accepts k writes.  A completed run exits with the return value of main,
0; an uncaught write failure terminates the process with status 1.  The
pair is the exit status and what reached the stream. -/
def script_run (k : Nat) : Int × List String :=
  match writeAll mainCalls (Stream.mk [] k) with
  | Except.ok st => (0, st.written)
  | Except.error st => (1, st.written)

/-- Whatever was written before a run, main appends exactly the payload
sequence mainCalls, for any environment and argument vector. -/
theorem main_out (env : List (String × String)) (argv : List String) (w : World) :
    ((main env argv w).1).out = w.out ++ mainCalls := by
  simp [main, mainCalls, initWorld, demo_supported_tools, demo_docker_usage, demo_configuration,
    demo_workflow, demo_python_api, demo_supported_models, demo_storage, demo_quick_start,
    print_section, pyPrint, List.append_assoc]

/-- splitLines never returns the empty list. -/
theorem splitLines_ne_nil (l : List Char) : splitLines l ≠ [] := by
  cases l with
  | nil => simp [splitLines]
  | cons c r =>
    simp only [splitLines]
    split
    · simp
    · split <;> simp

/-- A leading newline closes an empty line. -/
theorem splitLines_newline (r : List Char) : splitLines ('\n' :: r) = [] :: splitLines r := by
  simp [splitLines]

/-- A leading non-newline character extends the first line. -/
theorem splitLines_cons_ne (c : Char) (r : List Char) (h : c ≠ '\n') :
    splitLines (c :: r) = (c :: (splitLines r).headI) :: (splitLines r).tail := by
  simp only [splitLines, if_neg h]
  cases hr : splitLines r with
  | nil => exact absurd hr (splitLines_ne_nil r)
  | cons l ls => simp

/-- A newline-free prefix followed by a newline forms one whole line. -/
theorem splitLines_line (a r : List Char) (h : ∀ c ∈ a, c ≠ '\n') :
    splitLines (a ++ '\n' :: r) = a :: splitLines r := by
  induction a with
  | nil => simp [splitLines_newline]
  | cons c t ih =>
    have hc : c ≠ '\n' := h c (List.mem_cons_self c t)
    have ht : ∀ x ∈ t, x ≠ '\n' := fun x hx => h x (List.mem_cons_of_mem c hx)
    rw [List.cons_append, splitLines_cons_ne c _ hc, ih ht]
    simp

/-- No character of the separator is a newline. -/
theorem sep_no_newline : ∀ c ∈ sep.data, c ≠ '\n' := by
  intro c hc
  have hc2 : c = '=' := List.eq_of_mem_replicate hc
  subst hc2
  decide

/-- Writing a payload list against a stream of bounded capacity either
completes, or aborts at the first write past the capacity with exactly
the earlier payloads delivered. -/
theorem writeAll_spec (l : List String) : ∀ (o : List String) (k : Nat),
    writeAll l (Stream.mk o k) =
      if l.length ≤ k then Except.ok (Stream.mk (o ++ l) (k - l.length))
      else Except.error (Stream.mk (o ++ l.take k) 0) := by
  induction l with
  | nil => intro o k; simp [writeAll]
  | cons s rest ih =>
    intro o k
    cases k with
    | zero => simp [writeAll, fWrite]
    | succ n =>
      simp only [writeAll, fWrite]
      rw [ih (o ++ [s]) n]
      by_cases hle : rest.length ≤ n
      · rw [if_pos hle, if_pos (by simpa using Nat.succ_le_succ hle)]
        simp [List.append_assoc, Nat.succ_sub_succ]
      · rw [if_neg hle, if_neg (by simpa using fun hh => hle (Nat.le_of_succ_le_succ hh))]
        simp [List.append_assoc, List.take_succ_cons]

/-- Claim C1: the payload sequence of a run is the leading title banner,
then every registered section rendered as its own banner immediately
followed by its own body, in declaration order with nothing interleaved,
then the summary banner and body; moreover the banner title line of each
registered section occurs exactly once in the whole run. -/
theorem c1_sections_once_in_declaration_order :
    mainCalls = headerCalls ++ (sections.map printSectionCalls).flatten
        ++ printSectionCalls summarySection
    ∧ sections.all (fun s => mainCalls.count ("  " ++ s.title) == 1) = true := by
  constructor
  · rfl
  · decide

/-- Claim C2: one run prints as many banners as there are registered
sections, plus two: the leading title banner and the trailing summary
banner.  Each banner contributes exactly its two rule lines beginning
with the equals sign, and no other output line begins with one. -/
theorem c2_banner_count_sections_plus_two :
    bannerCount outLines = sections.length + 2 := by decide

/-- Claim C3: with no arguments, the first non-blank output line
contains the substring MedRAX Tutorial POC, and the heading Supported
Medical Analysis Tools appears in the output strictly before the heading
Docker Usage Examples. -/
theorem c3_first_line_and_heading_order :
    (outLines.find? (fun l => !l.isEmpty)).map
        (fun l => (findSub ("MedRAX Tutorial POC".data) l).isSome) = some true
    ∧ occursBefore ("Supported Medical Analysis Tools".data)
        ("Docker Usage Examples".data) outChars = true :=
  ⟨by decide, by decide⟩

/-- Claim C4: for every title handed to print_section (all titles the
program passes are newline-free), the rendered output is a blank line, a
separator line of 70 repeated characters, the indented title line,
another separator line, and a trailing blank line.  The final empty
entry is the artifact of the stream ending in a newline. -/
theorem c4_print_section_banner_shape (t : String) (h : ∀ c ∈ t.data, c ≠ '\n') :
    splitLines (renderChars ((print_section t initWorld).out)) =
      [[], sep.data, ' ' :: ' ' :: t.data, sep.data, [], []] := by
  obtain ⟨td⟩ := t
  have d1 : ("\n" ++ sep).data = '\n' :: sep.data := rfl
  have d2 : ("  " ++ String.mk td).data = ' ' :: ' ' :: td := rfl
  have d3 : (sep ++ "\n").data = sep.data ++ ['\n'] := rfl
  have e : renderChars ((print_section (String.mk td) initWorld).out)
      = '\n' :: (sep.data ++ '\n' :: ' ' :: ' ' :: (td ++ '\n' :: (sep.data ++ '\n' :: '\n' :: []))) := by
    simp [renderChars, print_section, pyPrint, initWorld, d1, d2, d3, List.append_assoc]
  rw [e, splitLines_newline, splitLines_line sep.data _ sep_no_newline,
    splitLines_cons_ne ' ' _ (by decide), splitLines_cons_ne ' ' _ (by decide),
    splitLines_line td _ h, splitLines_line sep.data _ sep_no_newline,
    splitLines_newline]
  simp [splitLines]

/-- Witness for claim C4 at a title the program actually passes. -/
theorem c4_print_section_banner_shape_witness :
    (∀ c ∈ ("Quick Start Summary" : String).data, c ≠ '\n')
    ∧ splitLines (renderChars ((print_section "Quick Start Summary" initWorld).out)) =
        [[], sep.data, ' ' :: ' ' :: ("Quick Start Summary" : String).data, sep.data, [], []] :=
  ⟨by decide, c4_print_section_banner_shape "Quick Start Summary" (by decide)⟩

/-- Claim C5: printSection emits the body of its section verbatim as the
final print payload, unchanged and uninterpreted, and every registered
body occurs verbatim among the payloads of a full run. -/
theorem c5_body_verbatim :
    (∀ s : Section, (printSectionCalls s).getLast? = some s.body)
    ∧ sections.all (fun s => mainCalls.contains s.body) = true :=
  ⟨fun _ => rfl, by decide⟩

/-- Claim C6: main returns 0 whatever the environment, arguments and
prior output, and the process exit status, the return value of main, is
0.  The embedding models a writable output stream; an unavailable stream
is the separate failure mode of claim C9. -/
theorem c6_exit_status_zero (env : List (String × String)) (argv : List String) (w : World) :
    (main env argv w).2 = 0 ∧ script_exit_code env argv = 0 :=
  ⟨rfl, rfl⟩

/-- Claim C7: the program is deterministic: the payloads a run appends
to the output stream are the same fixed sequence whatever the
environment, the argument vector, or anything written earlier, so two
runs with no environment changes produce byte-identical output. -/
theorem c7_deterministic (e1 e2 : List (String × String)) (a1 a2 : List String) (w1 w2 : World) :
    ((main e1 a1 w1).1).out.drop w1.out.length
      = ((main e2 a2 w2).1).out.drop w2.out.length := by
  rw [main_out, main_out, List.drop_left, List.drop_left]

/-- Claim C8: running main twice in the same process appends two full
byte-identical copies of the complete output; no state carried between
the runs alters the second one. -/
theorem c8_run_twice_two_identical_copies (env : List (String × String)) (argv : List String)
    (w : World) :
    ((main env argv (main env argv w).1).1).out = w.out ++ (mainCalls ++ mainCalls) := by
  rw [main_out, main_out, List.append_assoc]

/-- Claim C9: against a stream that stops accepting writes mid-run the
process terminates with the non-zero status 1 and exactly the payloads
written before the failure were delivered, with no retry; against a
stream that stays available the run delivers everything and exits 0,
the only other outcome. -/
theorem c9_stream_failure_aborts_nonzero (k : Nat) :
    (k < mainCalls.length → script_run k = (1, mainCalls.take k))
    ∧ (mainCalls.length ≤ k → script_run k = (0, mainCalls)) := by
  constructor
  · intro hk
    have e := writeAll_spec mainCalls [] k
    rw [if_neg (by omega)] at e
    simp [script_run, e]
  · intro hk
    have e := writeAll_spec mainCalls [] k
    rw [if_pos hk] at e
    simp [script_run, e]

/-- Witness for claim C9: a stream that breaks after five writes makes
the process exit 1 with only those five payloads delivered; a stream
accepting a hundred writes lets the run finish and exit 0. -/
theorem c9_stream_failure_aborts_nonzero_witness :
    script_run 5 = (1, mainCalls.take 5) ∧ script_run 100 = (0, mainCalls) :=
  ⟨(c9_stream_failure_aborts_nonzero 5).1 (by decide),
   (c9_stream_failure_aborts_nonzero 100).2 (by decide)⟩

/-- Claim C10: print_section is total: for every title string, with no
precondition, it emits the same three payloads forming the banner, and
for the empty title the rendered banner still has the five-line shape
with an empty title line. -/
theorem c10_print_section_total (t : String) :
    (print_section t initWorld).out = ["\n" ++ sep, "  " ++ t, sep ++ "\n"]
    ∧ splitLines (renderChars ((print_section "" initWorld).out))
      = [[], sep.data, [' ', ' '], sep.data, [], []] :=
  ⟨rfl, by decide⟩

end MedRAX
